import Mathlib

/-!
Shallow embedding of the SGR (schema-guided reasoning) agent runtime of this
repository, together with proofs about the properties its specification
states.  Each definition mirrors one function of the Python source:

* `truncate_conversation`   — `SGRVampiCodeAgent._truncate_conversation`
  (`sgr_deep_research/core/agents/sgr_vampi_code_agent.py`)
* `select_action_tool`      — the tool-synthesis logic of
  `SGRVampiCodeAgent._select_action_phase`
* `vampi_prepare_tools`, `sgr_prepare_tools` — the `_prepare_tools` methods
  of `SGRVampiCodeAgent` and `SGRResearchAgent`
* `TokenUsage.add_usage`, `TokenUsage.finalTotal` — `core/models.py`
* `trackRequestUsage`, `lastChunkUsage` — the usage-preference logic of the
  streaming phases
* `calculate_cost`, `runResultUsage` — `benchmark/model_benchmark`
* `createToolTypesUnion`, `decodeDerived`, `discriminantModelDump` — the
  discriminated-union builder of `core/tools/base.py`

Numeric amounts are modelled with `Nat` (token counters, Python ints).
Monetary cost values are IEEE-754 binary64 floats in the source; the ledger
models them exactly as scaled integers `mantissa * 2 ^ exponent` (`F64`) with
round-to-nearest-even applied on every addition (`fadd`), so that the order
sensitivity of float accumulation is visible.  The benchmark pricing
arithmetic (`calculate_cost`), which the spec states as a single exact
formula, is kept over `ℚ`.
-/

set_option maxHeartbeats 1000000

namespace SgrVampi

/-! ## Conversation messages and the truncation policy -/

/-- A conversation message: a role tag and an optional content string
(`content` is `None` on assistant messages that only carry tool calls). -/
structure Message where
  role : String
  content : Option String
  deriving DecidableEq, Repr

/-- `msg.get("content") or ""` — missing/`None` content becomes `""`. -/
def contentStr (m : Message) : String := m.content.getD ""

/-- Does `needle` occur at the head of `hay`? (char-list prefix test). -/
def leadsWith : List Char → List Char → Bool
  | [], _ => true
  | _ :: _, [] => false
  | a :: as, b :: bs => a == b && leadsWith as bs

/-- Python's `needle in hay` substring containment, on char lists (strings
are unfolded to their character lists so that every proof can evaluate). -/
def strContainsSub (hay needle : List Char) : Bool :=
  hay.tails.any (fun t => leadsWith needle t)

/-- Python's `s.lower()`, as a character list. -/
def pyLower (s : String) : List Char := s.toList.map Char.toLower

/-- The Russian clarification keyword used by the truncation marker check
(the second literal of line 93 of `sgr_vampi_code_agent.py`). -/
def russianClarificationKeyword : String := "уточнение"

/-- `"clarification" in content.lower() or "уточнение" in content.lower()` —
the clarification-marker check of `_truncate_conversation`. -/
def isClarificationMsg (m : Message) : Bool :=
  strContainsSub (pyLower (contentStr m)) "clarification".toList ||
    strContainsSub (pyLower (contentStr m)) russianClarificationKeyword.toList

/-- The first message whose role is `"user"` (the `initial_user_msg` scan). -/
def firstUserMsg (conv : List Message) : Option Message :=
  conv.find? (fun m => m.role == "user")

/-- Python's `l[-n:]` slice: for `n = 0` it is the whole list (because
`-0 == 0`), otherwise the last `min n (length l)` elements. -/
def pySliceLast (n : Nat) (l : List α) : List α :=
  if n = 0 then l else l.drop (l.length - n)

/-- The synthetic system notice inserted by truncation. -/
def truncationMarker (recentCount total : Nat) : Message :=
  ⟨"system",
    some ("[Conversation truncated. Showing recent " ++ toString recentCount ++
      " messages from " ++ toString total ++ " total]")⟩

/-- `SGRVampiCodeAgent._truncate_conversation`, as a pure function of the
message cap (`max_conversation_messages`) and the conversation list.
Mirrors lines 80–123 of `sgr_vampi_code_agent.py`: the early return when the
conversation fits the cap; the scan for the first user message and for
clarification-marker messages; `recent = max(cap - preserved, cap // 2)`;
the rebuilt list `initial user message (when any) + marker + recent slice`.
Note the collected clarification messages only enter `preserve_count` — they
are never appended to the rebuilt list. -/
def truncate_conversation (cap : Nat) (conv : List Message) : List Message :=
  if conv.length ≤ cap then conv
  else
    let initialUser := firstUserMsg conv
    let preserveCount :=
      (if initialUser.isSome then 1 else 0) + (conv.filter isClarificationMsg).length
    let recentCount := max (cap - preserveCount) (cap / 2)
    (match initialUser with
      | some m => [m]
      | none => []) ++
    (if cap < conv.length then [truncationMarker recentCount conv.length] else []) ++
    pySliceLast recentCount conv

/-! ## IEEE-754 binary64 cost values

`TokenUsage.cost` is a Python float accumulated with `+=`.  A binary64 value
in the normal range is exactly `mantissa * 2 ^ exponent`; addition computes
the exact sum and rounds it back to 53 significant bits, to nearest, ties to
even.  Results are normalized to an odd (or zero) mantissa so that equal
values have equal representations.  Infinities, NaNs, overflow and
subnormals are outside the range per-request monetary costs ever reach and
are not modelled. -/

/-- Bit length of a natural number (`⌊log₂ n⌋ + 1` for positive `n`), by
fuel-bounded structural recursion so that proofs can evaluate it. -/
def bitLenAux : Nat → Nat → Nat
  | 0, _ => 0
  | fuel + 1, n => if n = 0 then 0 else bitLenAux fuel (n / 2) + 1

/-- Bit length of a natural number. -/
def bitLen (n : Nat) : Nat := bitLenAux n n

/-- Round `N / D` (`D > 0`) to the nearest integer, ties to even. -/
def roundNatDiv (N D : Nat) : Nat :=
  let q := N / D
  let r := N % D
  if 2 * r < D then q
  else if D < 2 * r then q + 1
  else if q % 2 = 0 then q else q + 1

/-- A binary64 value in the normal range: `mantissa * 2 ^ exponent`. -/
structure F64 where
  mantissa : ℤ
  exponent : ℤ
  deriving DecidableEq, Repr

/-- Shift trailing zero bits out of the mantissa (fuel-bounded; the fuel is
an upper bound on the number of shifts). -/
def normAux : Nat → ℤ → ℤ → F64
  | 0, m, e => ⟨m, e⟩
  | fuel + 1, m, e => if m % 2 = 0 then normAux fuel (m / 2) (e + 1) else ⟨m, e⟩

/-- The canonical representation of `m * 2 ^ e`: zero, or an odd mantissa. -/
def F64.norm (m e : ℤ) : F64 :=
  if m = 0 then ⟨0, 0⟩ else normAux m.natAbs m e

/-- Round the exact value `M * 2 ^ E` to binary64: keep it when it fits in
53 bits, otherwise drop the excess low bits rounding to nearest, ties to
even on the magnitude (sign-symmetric, as IEEE-754 requires). -/
def roundToB64 (M : ℤ) (E : ℤ) : F64 :=
  if M = 0 then ⟨0, 0⟩
  else
    let n := M.natAbs
    let L := bitLen n
    if L ≤ 53 then F64.norm M E
    else
      let drop := L - 53
      let q := roundNatDiv n (2 ^ drop)
      F64.norm (if M < 0 then -(q : ℤ) else (q : ℤ)) (E + drop)

/-- IEEE-754 binary64 addition: align the addends on the smaller exponent,
sum exactly, round once. -/
def fadd (a b : F64) : F64 :=
  let E := min a.exponent b.exponent
  let M := a.mantissa * 2 ^ (a.exponent - E).toNat +
    b.mantissa * 2 ^ (b.exponent - E).toNat
  roundToB64 M E

/-! ## Usage ledger (`core/models.py`, `TokenUsage`) -/

/-- An OpenAI-style usage object (the attribute-access branch of
`TokenUsage.add_usage`).  Every counter is `Option Nat` because
`getattr(usage, field, 0) or 0` treats both a missing field and `None`
as zero.  `completion_tokens_details` / `prompt_tokens_details` are
`Option (Option Nat)`: the outer level is the truthiness guard on the details
substructure, the inner one the `reasoning_tokens or 0` / `cached_tokens or 0`
read.  `cost` collapses the three lookups (attribute, `model_extra`,
`__dict__`) into the first value found; its value is a binary64 float. -/
structure ObjUsage where
  prompt_tokens : Option Nat
  completion_tokens : Option Nat
  total_tokens : Option Nat
  completion_tokens_details : Option (Option Nat)
  prompt_tokens_details : Option (Option Nat)
  cost : Option F64
  deriving DecidableEq, Repr

/-- A dict-shaped usage record (the `isinstance(usage, dict)` branch of
`TokenUsage.add_usage`): direct `thinking_tokens` / `cached_tokens` keys plus
the nested details dicts, both of which are added. -/
structure DictUsage where
  prompt_tokens : Option Nat
  completion_tokens : Option Nat
  total_tokens : Option Nat
  thinking_tokens : Option Nat
  cached_tokens : Option Nat
  completion_tokens_details : Option (Option Nat)
  prompt_tokens_details : Option (Option Nat)
  cost : Option F64
  deriving DecidableEq, Repr

/-- The two shapes of usage payload `add_usage` accepts. -/
inductive Usage
  | obj (u : ObjUsage)
  | dict (u : DictUsage)
  deriving DecidableEq, Repr

/-- The running totals of the `TokenUsage` ledger (monetary cost is a
binary64 float; the bounded `request_details` audit list is appended by
`add_request_detail` and does not interact with these counters). -/
structure TokenUsage where
  prompt_tokens : Nat := 0
  completion_tokens : Nat := 0
  total_tokens : Nat := 0
  thinking_tokens : Nat := 0
  cached_tokens : Nat := 0
  cost : F64 := ⟨0, 0⟩
  deriving DecidableEq, Repr

/-- `TokenUsage.add_usage` (lines 88–156 of `core/models.py`): a `None`
payload is ignored; an object payload adds the three counters, the nested
reasoning/cached details and any cost found; a dict payload additionally adds
the direct `thinking_tokens`/`cached_tokens` keys.  The token counters are
pure integer `+=` accumulation; `self.cost += float(cost_val)` runs only when
a cost was found and is a float addition, modelled by `fadd`. -/
def TokenUsage.add_usage (s : TokenUsage) : Option Usage → TokenUsage
  | none => s
  | some (.obj u) =>
    { prompt_tokens := s.prompt_tokens + u.prompt_tokens.getD 0
      completion_tokens := s.completion_tokens + u.completion_tokens.getD 0
      total_tokens := s.total_tokens + u.total_tokens.getD 0
      thinking_tokens := s.thinking_tokens +
        (match u.completion_tokens_details with
          | some r => r.getD 0
          | none => 0)
      cached_tokens := s.cached_tokens +
        (match u.prompt_tokens_details with
          | some ct => ct.getD 0
          | none => 0)
      cost :=
        match u.cost with
        | some c => fadd s.cost c
        | none => s.cost }
  | some (.dict u) =>
    { prompt_tokens := s.prompt_tokens + u.prompt_tokens.getD 0
      completion_tokens := s.completion_tokens + u.completion_tokens.getD 0
      total_tokens := s.total_tokens + u.total_tokens.getD 0
      thinking_tokens := s.thinking_tokens + u.thinking_tokens.getD 0 +
        (match u.completion_tokens_details with
          | some r => r.getD 0
          | none => 0)
      cached_tokens := s.cached_tokens + u.cached_tokens.getD 0 +
        (match u.prompt_tokens_details with
          | some ct => ct.getD 0
          | none => 0)
      cost :=
        match u.cost with
        | some c => fadd s.cost c
        | none => s.cost }

/-- The `total_tokens` normalization performed by `TokenUsage.to_dict`
(lines 193–206 of `core/models.py`). -/
def TokenUsage.finalTotal (s : TokenUsage) : Nat :=
  let calculated := s.prompt_tokens + s.completion_tokens
  if 0 < s.thinking_tokens then
    if s.total_tokens = calculated then s.total_tokens + s.thinking_tokens
    else if s.total_tokens < calculated + s.thinking_tokens then
      calculated + s.thinking_tokens
    else s.total_tokens
  else s.total_tokens

/-- The flat dictionary returned by `TokenUsage.to_dict`. -/
structure UsageDict where
  prompt_tokens : Nat
  completion_tokens : Nat
  total_tokens : Nat
  thinking_tokens : Nat
  cached_tokens : Nat
  cost : F64
  deriving DecidableEq, Repr

/-- `TokenUsage.to_dict`: the counters verbatim except for the normalized
total. -/
def TokenUsage.to_dict (s : TokenUsage) : UsageDict :=
  ⟨s.prompt_tokens, s.completion_tokens, s.finalTotal, s.thinking_tokens,
    s.cached_tokens, s.cost⟩

/-- The ledger with its float cost zeroed out: the integer-counter part,
which accumulates exactly. -/
def TokenUsage.eraseCost (s : TokenUsage) : TokenUsage :=
  ⟨s.prompt_tokens, s.completion_tokens, s.total_tokens, s.thinking_tokens,
    s.cached_tokens, ⟨0, 0⟩⟩

/-- A usage record reporting only the monetary cost 1.0. -/
def costOneUsage : Usage :=
  .obj ⟨none, none, none, none, none, some ⟨1, 0⟩⟩

/-- A usage record reporting only the monetary cost 2⁻⁵³ (one half unit in
the last place of 1.0). -/
def costTinyUsage : Usage :=
  .obj ⟨none, none, none, none, none, some ⟨1, -53⟩⟩

/-! ## Streaming usage extraction (the `_reasoning_phase` /
`_select_action_phase` chunk loops) -/

/-- One streamed fragment, reduced to the two places the loops look for
usage: `chunk.usage` and `chunk.model_extra["usage"]`. -/
structure StreamChunk where
  usage : Option Usage
  model_extra_usage : Option Usage
  deriving DecidableEq, Repr

/-- The per-chunk usage source: `chunk.usage` when truthy, else the
`model_extra` fallback (the `if`/`elif` of the chunk loop). -/
def chunkUsage (c : StreamChunk) : Option Usage :=
  match c.usage with
  | some u => some u
  | none => c.model_extra_usage

/-- The `last_chunk_usage` accumulator: the loop overwrites it whenever a
chunk carries usage, so it ends as the most recent usage-carrying fragment's
payload. -/
def lastChunkUsage (chunks : List StreamChunk) : Option Usage :=
  chunks.foldl
    (fun acc c =>
      match chunkUsage c with
      | some u => some u
      | none => acc)
    none

/-- The post-stream merge (`if completion.usage: ... elif last_chunk_usage:`)
of both phases: prefer the terminal completion's usage, fall back to the last
chunk usage, else leave the ledger untouched. -/
def trackRequestUsage (s : TokenUsage) (completionUsage : Option Usage)
    (chunks : List StreamChunk) : TokenUsage :=
  match completionUsage with
  | some u => s.add_usage (some u)
  | none =>
    match lastChunkUsage chunks with
    | some u => s.add_usage (some u)
    | none => s

/-- A conversation exhibiting the clarification-preservation bug: the second
message matches the clarification marker but sits outside the recent window
once the cap (4 here) is exceeded. -/
def c2ClarifMsg : Message := ⟨"user", some "clarification: which file should I edit?"⟩

/-- Six messages against a cap of four: initial task, a clarification, then
four assistant messages. -/
def c2Conv : List Message :=
  [⟨"user", some "analyze the repository"⟩, c2ClarifMsg,
   ⟨"assistant", some "m3"⟩, ⟨"assistant", some "m4"⟩,
   ⟨"assistant", some "m5"⟩, ⟨"assistant", some "m6"⟩]

/-! ## Agent lifecycle states and the action-selection fallback
(`core/models.py` `AgentStatesEnum`, `sgr_vampi_code_agent.py`
`_select_action_phase`) -/

/-- `AgentStatesEnum`. -/
inductive AgentState
  | inited
  | researching
  | waiting_for_clarification
  | completed
  | error
  | failed
  deriving DecidableEq, Repr

/-- `AgentStatesEnum.FINISH_STATES`. -/
def finishStates : List AgentState := [.completed, .failed, .error]

/-- `FinalAnswerTool` (`core/tools/base.py`): its `status` field is declared
`Literal[COMPLETED, FAILED, ERROR]`; the synthesized instances below only use
`completed` and `error`. -/
structure FinalAnswerTool where
  reasoning : String
  completed_steps : List String
  answer : String
  status : AgentState
  deriving DecidableEq, Repr

/-- The mutable slice of `ResearchContext` a final answer writes. -/
structure RunContext where
  state : AgentState
  execution_result : Option String
  deriving DecidableEq, Repr

/-- `FinalAnswerTool.__call__`: writes the terminal state and the answer into
the context. -/
def FinalAnswerTool.execute (fa : FinalAnswerTool) (_ctx : RunContext) : RunContext :=
  { state := fa.status, execution_result := some fa.answer }

/-- The action `_select_action_phase` hands to the action phase: either the
parsed tool call or a synthesized final answer. -/
inductive ActionTool
  | parsed (name : String)
  | finalAnswer (fa : FinalAnswerTool)
  deriving DecidableEq, Repr

/-- The three ways the action-selection request can come back: a parseable
tool call; a free-text message (the `IndexError`/`AttributeError`/`TypeError`
path when `tool_calls` is absent); or an exception raised inside the `try`
block (streaming or schema-validation failure). -/
inductive SelectOutcome
  | toolCall (t : ActionTool)
  | textResponse (content : Option String)
  | failure (msg : String)
  deriving DecidableEq, Repr

/-- Python's `x or default` on an optional string: `None` and `""` both fall
through to the default. -/
def pyOrString (c : Option String) (d : String) : String :=
  match c with
  | some s => if s = "" then d else s
  | none => d

/-- The tool produced by `_select_action_phase` (lines 352–384): a parsed
tool call is used as-is; a free-text response synthesizes a `FinalAnswerTool`
with status COMPLETED carrying the raw text; an exception synthesizes a
`FinalAnswerTool` with status ERROR carrying the error message. -/
def select_action_tool : SelectOutcome → ActionTool
  | .toolCall t => t
  | .textResponse content =>
    .finalAnswer
      { reasoning := "Agent decided to complete the task"
        completed_steps := [pyOrString content "Task completed successfully"]
        answer := pyOrString content "Task completed successfully"
        status := .completed }
  | .failure msg =>
    .finalAnswer
      { reasoning := "Tool generation failed: " ++ msg
        completed_steps := ["Encountered tool generation error"]
        answer := "Error during tool generation: " ++ msg ++ ". Please retry the task."
        status := .error }

/-! ## Tool catalogue and per-step candidate narrowing
(`core/tools/base.py`, `core/tools/coding.py`, the two `_prepare_tools`) -/

/-- The closed catalogue of tool variants the agents draw from. -/
inductive ToolClass
  | reasoningTool
  | finalAnswerTool
  | createReportTool
  | webSearchTool
  | extractPageContentTool
  | readFileTool
  | writeFileTool
  | editFileTool
  | grepTool
  | runCommandTool
  | listDirectoryTool
  | findFilesTool
  deriving DecidableEq, Repr

/-- `system_agent_tools` (`core/tools/base.py`, line 217). -/
def system_agent_tools : List ToolClass := [.finalAnswerTool, .reasoningTool]

/-- `coding_agent_tools` (`core/tools/coding.py`, line 434). -/
def coding_agent_tools : List ToolClass :=
  [.readFileTool, .writeFileTool, .editFileTool, .grepTool, .runCommandTool,
   .listDirectoryTool, .findFilesTool, .webSearchTool, .extractPageContentTool]

/-- The toolkit `SGRVampiCodeAgent.__init__` assembles: system tools, coding
tools, then any caller-supplied extras. -/
def vampiToolkit (extra : List ToolClass) : List ToolClass :=
  system_agent_tools ++ coding_agent_tools ++ extra

/-- `SGRVampiCodeAgent._prepare_tools` (lines 181–202): the full toolkit as a
set, collapsed to `{ReasoningTool, FinalAnswerTool}` once the iteration
counter reaches `max_iterations` (the Cerebras schema stripping does not
change which tools are offered). -/
def vampi_prepare_tools (maxIterations iteration : Nat)
    (toolkit : Finset ToolClass) : Finset ToolClass :=
  if maxIterations ≤ iteration then
    {ToolClass.reasoningTool, ToolClass.finalAnswerTool}
  else toolkit

/-- `SGRResearchAgent._prepare_tools` (lines 60–72): collapse to
`{CreateReportTool, FinalAnswerTool}` at the iteration cap, then remove
`WebSearchTool` once the search budget is spent. -/
def sgr_prepare_tools (maxIterations maxSearches iteration searchesUsed : Nat)
    (toolkit : Finset ToolClass) : Finset ToolClass :=
  let tools :=
    if maxIterations ≤ iteration then
      ({ToolClass.createReportTool, ToolClass.finalAnswerTool} : Finset ToolClass)
    else toolkit
  if maxSearches ≤ searchesUsed then tools \ {ToolClass.webSearchTool} else tools

/-- A variant is final-answer-capable when executing it can put the run into
a terminal state.  `FinalAnswerTool.__call__` writes `context.state`;
`ReasoningTool.__call__` only returns its own dump and changes nothing.
Modelled from the spec: `CreateReportTool` lives in `core/tools/research.py`,
which is absent from the snapshot; the spec groups it with the
final-answer-capable variants of the research agent's forced-completion set. -/
def finalAnswerCapable : ToolClass → Bool
  | .finalAnswerTool => true
  | .createReportTool => true
  | _ => false

/-! ## Discriminated tool-schema builder (`core/tools/base.py`,
`NextStepToolsBuilder` and `DiscriminantToolMixin`) -/

/-- A tool variant descriptor: wire name plus declared instance fields. -/
structure ToolVariant where
  tool_name : String
  fields : List String
  deriving DecidableEq, Repr

/-- The name of the injected discriminant field. -/
def discriminantField : String := "tool_name_discriminator"

/-- The required field list of the derived `D_<Tool>` schema built by
`_create_discriminant_tool`: the variant's own fields plus the discriminant. -/
def derivedFields (v : ToolVariant) : List String :=
  v.fields ++ [discriminantField]

/-- The `Literal[tool_class.tool_name]` annotation: validation of the
discriminant accepts exactly the variant's own name. -/
def discriminantValid (v : ToolVariant) (value : String) : Bool :=
  value == v.tool_name

/-- Decoding an instance of the derived variant of `v`: the variant's field
assignment plus the discriminant entry carrying `v.tool_name`. -/
def decodeDerived (v : ToolVariant) (base : List (String × String)) :
    List (String × String) :=
  base ++ [(discriminantField, v.tool_name)]

/-- `DiscriminantToolMixin.model_dump`: serialization excludes the
discriminant entry. -/
def discriminantModelDump (inst : List (String × String)) :
    List (String × String) :=
  inst.filter (fun kv => kv.1 != discriminantField)

/-- The `function` field type produced by `_create_tool_types_union`: the
single derived schema directly for one candidate, a tagged union otherwise. -/
inductive FunctionSchema
  | single (v : ToolVariant)
  | union (vs : List ToolVariant)
  deriving DecidableEq, Repr

/-- `_create_tool_types_union`. -/
def createToolTypesUnion (ts : List ToolVariant) : FunctionSchema :=
  match ts with
  | [t] => .single t
  | _ => .union ts

/-- `build_NextStepTools`: the reasoning schema whose `function` field holds
the union. -/
structure NextStepTools where
  function : FunctionSchema
  deriving DecidableEq, Repr

/-- `NextStepToolsBuilder.build_NextStepTools`. -/
def build_NextStepTools (ts : List ToolVariant) : NextStepTools :=
  ⟨createToolTypesUnion ts⟩

/-! ## Benchmark cost computation (`benchmark/model_benchmark/providers.py`
and `runner.py`) -/

/-- Per-model pricing supplied by `ModelConfig`. -/
structure ModelPricing where
  input_price_per_million : ℚ
  output_price_per_million : ℚ
  deriving DecidableEq, Repr

/-- `BaseProvider.calculate_cost` (lines 29–33 of `providers.py`). -/
def calculate_cost (p : ModelPricing) (prompt_tokens completion_tokens : Nat) : ℚ :=
  (prompt_tokens : ℚ) / 1000000 * p.input_price_per_million +
    (completion_tokens : ℚ) / 1000000 * p.output_price_per_million

/-- The flattened usage dict `_run_with_sgr_agent` reads (the output of
`TokenUsage.to_dict` or of a provider's `extract_usage`): each key read with
`get(key, 0) or 0`. -/
structure UsageData where
  prompt_tokens : Option Nat
  completion_tokens : Option Nat
  thinking_tokens : Option Nat
  completion_tokens_details : Option (Option Nat)
  total_tokens : Option Nat
  cost : Option ℚ
  deriving DecidableEq, Repr

/-- The token/cost fields recorded on a benchmark task result. -/
structure ResultUsage where
  prompt_tokens : Nat
  completion_tokens : Nat
  thinking_tokens : Nat
  total_tokens : Nat
  cost_usd : ℚ
  deriving DecidableEq, Repr

/-- Lines 263–334 of `runner.py` (`_run_with_sgr_agent`): token extraction,
total normalization, and the cost preference — the API-reported cost when the
usage dict carries one, otherwise `calculate_cost` over prompt and
completion-plus-thinking tokens; with no usage data at all, a character-count
estimate (`len // 4`, floored at 1) priced the same way. -/
def runResultUsage (pricing : ModelPricing) (taskLen respLen : Nat)
    (usageData : Option UsageData) : ResultUsage :=
  match usageData with
  | some ud =>
    let prompt := ud.prompt_tokens.getD 0
    let completion := ud.completion_tokens.getD 0
    let thinkingDirect := ud.thinking_tokens.getD 0
    let thinking :=
      if thinkingDirect = 0 then
        match ud.completion_tokens_details with
        | some r => r.getD 0
        | none => 0
      else thinkingDirect
    let apiTotal := ud.total_tokens.getD 0
    let calculated := prompt + completion
    let total :=
      if 0 < apiTotal ∧ 0 < thinking then
        if apiTotal < calculated + thinking then apiTotal + thinking else apiTotal
      else if 0 < apiTotal then apiTotal
      else calculated + thinking
    let cost :=
      match ud.cost with
      | some c => c
      | none => calculate_cost pricing prompt (completion + thinking)
    ⟨prompt, completion, thinking, total, cost⟩
  | none =>
    let prompt := max 1 (taskLen / 4)
    let completion := max 1 (respLen / 4)
    ⟨prompt, completion, 0, prompt + completion,
      calculate_cost pricing prompt completion⟩

/-- A concrete ledger state: totals as reported by a backend whose
`total_tokens` excludes the thinking tokens. -/
def demoTokenUsage : TokenUsage :=
  { prompt_tokens := 10, completion_tokens := 5, total_tokens := 15,
    thinking_tokens := 3, cached_tokens := 0, cost := ⟨0, 0⟩ }

/-- A concrete object-shaped usage payload (its cost, `3 * 2⁻⁷`, is an exact
binary64 value). -/
def demoObjUsage : Usage :=
  .obj ⟨some 100, some 20, some 120, some (some 7), none, some ⟨3, -7⟩⟩

/-- A concrete dict-shaped usage payload. -/
def demoDictUsage : Usage :=
  .dict ⟨some 50, some 10, some 60, some 2, some 1, none, none, none⟩

/-- A concrete tool variant descriptor (the final-answer tool's fields). -/
def demoVariant : ToolVariant :=
  ⟨"finalanswertool", ["reasoning", "completed_steps", "answer", "status"]⟩

/-- A conversation already within the cap is returned unchanged (the early
return of `_truncate_conversation`). -/
theorem truncate_within (cap : Nat) (c : List Message) (h : c.length ≤ cap) :
    truncate_conversation cap c = c := by
  simp [truncate_conversation, h]

/-- Filtering a replicated list with a predicate false at the element gives
the empty list. -/
theorem filter_replicate_neg {p : Message → Bool} {a : Message} (h : p a = false) :
    ∀ n, (List.replicate n a).filter p = [] := by
  intro n
  induction n with
  | zero => rfl
  | succ k ih => simp [List.replicate_succ, List.filter_cons, h, ih]

/-- C2 (code bug evidence): the message `c2ClarifMsg` matches the
clarification marker and is part of the conversation, yet
`_truncate_conversation` with cap 4 drops it: the code counts clarification
messages in `preserve_count` but never re-appends them, contradicting its own
docstring ("Preserve important context like clarifications"). -/
theorem truncation_drops_clarification_message :
    isClarificationMsg c2ClarifMsg = true ∧
      c2ClarifMsg ∈ c2Conv ∧
      4 < c2Conv.length ∧
      c2ClarifMsg ∉ truncate_conversation 4 c2Conv := by
  decide

/-- C8: truncation is idempotent on conversations already within the cap,
and whenever a truncation actually fires, the first user message (when one
exists) is present in the truncated output. -/
theorem truncation_idempotent_and_first_user_anchored :
    (∀ (cap : Nat) (c : List Message),
        (truncate_conversation cap c).length ≤ cap →
        truncate_conversation cap (truncate_conversation cap c) =
          truncate_conversation cap c) ∧
    (∀ (cap : Nat) (c : List Message) (m : Message),
        cap < c.length → firstUserMsg c = some m →
        m ∈ truncate_conversation cap c) := by
  constructor
  · intro cap c h
    exact truncate_within cap _ h
  · intro cap c m hlen hfind
    simp only [truncate_conversation]
    rw [if_neg (Nat.not_le.mpr hlen)]
    simp [hfind]

/-- C10: whenever the cap is at least 2 (the shipped configuration uses 80),
a single truncation pass leaves at most `cap + 1` messages, and a
conversation made of one user message followed by `cap` plain assistant
messages is left with exactly `cap + 1` messages — one above the cap. -/
theorem truncation_length_at_most_cap_plus_one (cap : Nat) (hcap : 2 ≤ cap) :
    (∀ c : List Message, cap < c.length →
        (truncate_conversation cap c).length ≤ cap + 1) ∧
    (∃ c : List Message, cap < c.length ∧
        (truncate_conversation cap c).length = cap + 1) := by
  constructor
  · intro c hc
    simp only [truncate_conversation]
    rw [if_neg (Nat.not_le.mpr hc), if_pos hc]
    rcases hfu : firstUserMsg c with _ | m
    · simp only [hfu, Option.isSome_none, Bool.false_eq_true, if_false, List.nil_append,
        pySliceLast]
      rw [if_neg (by omega)]
      simp only [List.length_append, List.length_cons, List.length_drop, List.length_nil]
      omega
    · simp only [hfu, Option.isSome_some, if_true, pySliceLast]
      rw [if_neg (by omega)]
      simp only [List.length_append, List.length_cons, List.length_drop, List.length_nil]
      omega
  · refine ⟨⟨"user", some "t"⟩ :: List.replicate cap ⟨"assistant", some "m"⟩, by simp, ?_⟩
    have hfu : firstUserMsg (⟨"user", some "t"⟩ ::
        List.replicate cap (⟨"assistant", some "m"⟩ : Message)) =
        some ⟨"user", some "t"⟩ := rfl
    have hfil : (⟨"user", some "t"⟩ ::
        List.replicate cap (⟨"assistant", some "m"⟩ : Message)).filter
          isClarificationMsg = [] := by
      rw [List.filter_cons_of_neg, filter_replicate_neg (by decide)]
      decide
    have hlen : (⟨"user", some "t"⟩ ::
        List.replicate cap (⟨"assistant", some "m"⟩ : Message)).length = cap + 1 := by
      simp
    simp only [truncate_conversation, hfu, hfil, hlen, Option.isSome_some, if_true,
      List.length_nil]
    rw [if_neg (by omega), if_pos (by omega)]
    simp only [pySliceLast, hlen]
    rw [if_neg (by omega)]
    simp only [List.length_append, List.length_cons, List.length_drop, List.length_nil, hlen]
    omega

/-- Auxiliary: the chunk-loop fold ends with the payload of the last
usage-carrying fragment, whatever the accumulator started as. -/
theorem lastChunkUsage_foldl (chunks : List StreamChunk) :
    ∀ acc : Option Usage,
      chunks.foldl
        (fun acc c =>
          match chunkUsage c with
          | some u => some u
          | none => acc) acc =
        match (chunks.filterMap chunkUsage).getLast? with
        | some u => some u
        | none => acc := by
  induction chunks with
  | nil => intro acc; rfl
  | cons c cs ih =>
    intro acc
    rcases h : chunkUsage c with _ | u
    · simp only [List.foldl_cons, List.filterMap_cons, h]
      exact ih acc
    · simp only [List.foldl_cons, List.filterMap_cons, h]
      rw [ih (some u), List.getLast?_cons]
      rcases hq : (cs.filterMap chunkUsage).getLast? with _ | v <;> simp [hq]

/-- C5: when the accumulated `total_tokens` equals
`prompt_tokens + completion_tokens` and thinking tokens were recorded,
`to_dict` reports `prompt + completion + thinking` as the total. -/
theorem to_dict_total_adds_thinking (s : TokenUsage)
    (h1 : s.total_tokens = s.prompt_tokens + s.completion_tokens)
    (h2 : 0 < s.thinking_tokens) :
    (TokenUsage.to_dict s).total_tokens =
      s.prompt_tokens + s.completion_tokens + s.thinking_tokens := by
  simp [TokenUsage.to_dict, TokenUsage.finalTotal, h1, h2]

/-- Cost aside, `add_usage` commutes: zeroing the float cost out of the
ledger makes any two merges interchangeable (the token counters are exact
integer sums). -/
theorem eraseCost_add_usage (s : TokenUsage) (u : Option Usage) :
    (s.add_usage u).eraseCost = (s.eraseCost.add_usage u).eraseCost := by
  rcases u with _ | (x | x) <;> rfl

/-- Folding `add_usage` then zeroing the cost is the fold of the cost-erased
merge. -/
theorem eraseCost_foldl (l : List (Option Usage)) :
    ∀ s : TokenUsage,
      (l.foldl TokenUsage.add_usage s).eraseCost =
        l.foldl (fun t u => (t.add_usage u).eraseCost) s.eraseCost := by
  induction l with
  | nil => intro s; rfl
  | cons u t ih =>
    intro s
    simp only [List.foldl_cons]
    rw [ih]
    congr 1
    exact eraseCost_add_usage s u

/-- C6 (counterexample): merging three concrete per-request costs — 1.0 and
twice 2⁻⁵³ — in two permuted orders yields different accumulated costs
(1.0 versus 1.0 + 2⁻⁵², the classic float non-associativity), so fold
results over permutations are not always equal. -/
theorem add_usage_cost_order_dependent :
    List.Perm [some costOneUsage, some costTinyUsage, some costTinyUsage]
      [some costTinyUsage, some costTinyUsage, some costOneUsage] ∧
    ([some costOneUsage, some costTinyUsage,
        some costTinyUsage].foldl TokenUsage.add_usage {}).cost ≠
      ([some costTinyUsage, some costTinyUsage,
        some costOneUsage].foldl TokenUsage.add_usage {}).cost := by
  constructor
  · exact (List.Perm.swap (some costTinyUsage) (some costOneUsage)
      [some costTinyUsage]).trans
      (List.Perm.cons (some costTinyUsage)
        (List.Perm.swap (some costTinyUsage) (some costOneUsage) []))
  · decide

/-- C6 (amended): folding `add_usage` over any permutation of a request
sequence yields the same totals for the five integer counters — prompt,
completion, total, thinking and cached tokens are pure exact accumulation.
The accumulated cost is an IEEE-754 float sum and is order-independent only
up to floating-point rounding. -/
theorem add_usage_fold_counters_perm_invariant (s : TokenUsage)
    (l₁ l₂ : List (Option Usage)) (hp : l₁.Perm l₂) :
    (l₁.foldl TokenUsage.add_usage s).prompt_tokens =
        (l₂.foldl TokenUsage.add_usage s).prompt_tokens ∧
    (l₁.foldl TokenUsage.add_usage s).completion_tokens =
        (l₂.foldl TokenUsage.add_usage s).completion_tokens ∧
    (l₁.foldl TokenUsage.add_usage s).total_tokens =
        (l₂.foldl TokenUsage.add_usage s).total_tokens ∧
    (l₁.foldl TokenUsage.add_usage s).thinking_tokens =
        (l₂.foldl TokenUsage.add_usage s).thinking_tokens ∧
    (l₁.foldl TokenUsage.add_usage s).cached_tokens =
        (l₂.foldl TokenUsage.add_usage s).cached_tokens := by
  have h : (l₁.foldl TokenUsage.add_usage s).eraseCost =
      (l₂.foldl TokenUsage.add_usage s).eraseCost := by
    rw [eraseCost_foldl, eraseCost_foldl]
    refine hp.foldl_eq' ?_ s.eraseCost
    intro x _ y _ z
    rcases x with _ | (ux | ux) <;> rcases y with _ | (uy | uy) <;>
      simp only [TokenUsage.add_usage, TokenUsage.eraseCost,
        TokenUsage.mk.injEq] <;>
      and_intros <;> first | rfl | omega | ring_nf
  have h1 := congrArg TokenUsage.prompt_tokens h
  have h2 := congrArg TokenUsage.completion_tokens h
  have h3 := congrArg TokenUsage.total_tokens h
  have h4 := congrArg TokenUsage.thinking_tokens h
  have h5 := congrArg TokenUsage.cached_tokens h
  exact ⟨h1, h2, h3, h4, h5⟩

/-- C7: the usage merged after a completed request comes from the terminal
completion object when it carries usage; otherwise from the most recent
usage-carrying streamed fragment; and the ledger is untouched when neither
exists.  The first conjunct pins `last_chunk_usage` down as the last
usage-carrying fragment of the stream. -/
theorem usage_merge_prefers_terminal (s : TokenUsage) (cu : Option Usage)
    (chunks : List StreamChunk) :
    lastChunkUsage chunks = (chunks.filterMap chunkUsage).getLast? ∧
    (∀ u, cu = some u → trackRequestUsage s cu chunks = s.add_usage (some u)) ∧
    (cu = none → ∀ u, lastChunkUsage chunks = some u →
        trackRequestUsage s cu chunks = s.add_usage (some u)) ∧
    (cu = none → lastChunkUsage chunks = none →
        trackRequestUsage s cu chunks = s) := by
  refine ⟨?_, ?_, ?_, ?_⟩
  · rw [lastChunkUsage, lastChunkUsage_foldl]
    rcases hq : (chunks.filterMap chunkUsage).getLast? with _ | u <;> simp
  · intro u h
    subst h
    rfl
  · intro h u hl
    subst h
    simp [trackRequestUsage, hl]
  · intro h hl
    subst h
    simp [trackRequestUsage, hl]

/-- C1 (counterexample): on a free-text response the synthesized
`FinalAnswerTool` carries the raw text but status COMPLETED, not ERROR. -/
theorem select_action_free_text_status_not_error :
    select_action_tool (.textResponse (some "I cannot produce a tool call.")) =
      .finalAnswer
        ⟨"Agent decided to complete the task",
          ["I cannot produce a tool call."],
          "I cannot produce a tool call.", .completed⟩ ∧
    AgentState.completed ≠ AgentState.error := by
  constructor
  · rfl
  · decide

/-- C1 (amended): a free-text response yields a synthetic `FinalAnswerTool`
whose answer is the raw text and whose status is COMPLETED; executing it puts
the run into the terminal COMPLETED state, so the loop ends without an
exception.  Only an exception during selection (e.g. schema-invalid
arguments) yields the ERROR status. -/
theorem select_action_free_text_completes (content : String) (h : content ≠ "") :
    (select_action_tool (.textResponse (some content)) =
      .finalAnswer
        ⟨"Agent decided to complete the task", [content], content, .completed⟩) ∧
    (∀ ctx : RunContext,
      (FinalAnswerTool.execute
        ⟨"Agent decided to complete the task", [content], content, .completed⟩
        ctx).state = .completed ∧
      (FinalAnswerTool.execute
        ⟨"Agent decided to complete the task", [content], content, .completed⟩
        ctx).state ∈ finishStates) ∧
    (∀ msg : String,
      select_action_tool (.failure msg) =
        .finalAnswer
          ⟨"Tool generation failed: " ++ msg,
            ["Encountered tool generation error"],
            "Error during tool generation: " ++ msg ++ ". Please retry the task.",
            .error⟩) := by
  refine ⟨?_, ?_, ?_⟩
  · simp [select_action_tool, pyOrString, h]
  · intro ctx
    refine ⟨rfl, ?_⟩
    simp [FinalAnswerTool.execute, finishStates]
  · intro msg
    rfl

/-- C3 (counterexample): at the iteration cap the vampi agent's candidate set
still contains `ReasoningTool`, which is not final-answer-capable (its
execution never writes a terminal state). -/
theorem narrowed_set_contains_reasoning_tool :
    ToolClass.reasoningTool ∈ vampi_prepare_tools 20 20 (vampiToolkit []).toFinset ∧
    finalAnswerCapable ToolClass.reasoningTool = false := by
  decide

/-- C3 (amended): for iteration ≥ `max_iterations` the research agent's
candidate set contains only final-answer-capable variants and further
increments return the same set; the vampi code agent's candidate set equals
`{ReasoningTool, FinalAnswerTool}` — `FinalAnswerTool` plus the
non-final-answer `ReasoningTool` its reasoning scheme requires — is likewise
stable under further increments, and is a subset of its toolkit. -/
theorem prepare_tools_narrowing (maxIt maxS iter su : Nat) (tk : Finset ToolClass)
    (extra : List ToolClass) (h : maxIt ≤ iter) :
    (∀ t ∈ sgr_prepare_tools maxIt maxS iter su tk, finalAnswerCapable t = true) ∧
    (∀ iter', maxIt ≤ iter' →
      sgr_prepare_tools maxIt maxS iter' su tk =
        sgr_prepare_tools maxIt maxS iter su tk) ∧
    (vampi_prepare_tools maxIt iter tk =
      {ToolClass.reasoningTool, ToolClass.finalAnswerTool}) ∧
    (∀ iter', maxIt ≤ iter' → ∀ tk' : Finset ToolClass,
      vampi_prepare_tools maxIt iter' tk' = vampi_prepare_tools maxIt iter tk') ∧
    (vampi_prepare_tools maxIt iter ((vampiToolkit extra).toFinset) ⊆
      (vampiToolkit extra).toFinset) := by
  refine ⟨?_, ?_, ?_, ?_, ?_⟩
  · intro t ht
    simp only [sgr_prepare_tools, if_pos h] at ht
    have hmem : t ∈ ({ToolClass.createReportTool, ToolClass.finalAnswerTool} :
        Finset ToolClass) := by
      by_cases hs : maxS ≤ su
      · rw [if_pos hs] at ht
        exact (Finset.mem_sdiff.mp ht).1
      · rw [if_neg hs] at ht
        exact ht
    rcases Finset.mem_insert.mp hmem with rfl | hmem'
    · rfl
    · rw [Finset.mem_singleton.mp hmem']
      rfl
  · intro iter' h'
    simp [sgr_prepare_tools, if_pos h, if_pos h']
  · simp [vampi_prepare_tools, if_pos h]
  · intro iter' h' tk'
    simp [vampi_prepare_tools, if_pos h, if_pos h']
  · intro t ht
    rw [vampi_prepare_tools, if_pos h] at ht
    rcases Finset.mem_insert.mp ht with rfl | ht'
    · simp [vampiToolkit, system_agent_tools, coding_agent_tools]
    · rw [Finset.mem_singleton.mp ht']
      simp [vampiToolkit, system_agent_tools, coding_agent_tools]

/-- C4: every derived variant adds exactly one required field — the
discriminant, whose validation accepts exactly the variant's tool name; a
singleton candidate set skips the union and uses the derived schema
directly (two or more candidates produce the union); and serializing a
decoded action excludes the discriminant, recovering exactly the original
fields. -/
theorem discriminated_schema_roundtrip (ts : List ToolVariant)
    (hN : 1 ≤ ts.length) :
    (∀ v ∈ ts, ∀ value : String,
      discriminantValid v value = true ↔ value = v.tool_name) ∧
    (∀ v ∈ ts, ∀ base : List (String × String),
      (decodeDerived v base).length = base.length + 1 ∧
      (decodeDerived v base).getLast? = some (discriminantField, v.tool_name)) ∧
    (∀ v ∈ ts, ∀ base : List (String × String),
      discriminantField ∉ base.map Prod.fst →
      discriminantModelDump (decodeDerived v base) = base) ∧
    (∀ t : ToolVariant, ts = [t] →
      build_NextStepTools ts = ⟨.single t⟩) ∧
    (∀ (t₁ t₂ : ToolVariant) (rest : List ToolVariant), ts = t₁ :: t₂ :: rest →
      build_NextStepTools ts = ⟨.union ts⟩) := by
  refine ⟨?_, ?_, ?_, ?_, ?_⟩
  · intro v _ value
    simp [discriminantValid]
  · intro v _ base
    refine ⟨by simp [decodeDerived], ?_⟩
    simp [decodeDerived]
  · intro v _ base hbase
    rw [decodeDerived, discriminantModelDump, List.filter_append]
    have h2 : List.filter (fun kv => kv.1 != discriminantField)
        [(discriminantField, v.tool_name)] = [] := by
      simp
    rw [h2, List.append_nil]
    apply List.filter_eq_self.mpr
    intro kv hkv
    have : kv.1 ≠ discriminantField := by
      intro hEq
      exact hbase (hEq ▸ List.mem_map_of_mem Prod.fst hkv)
    simp [this]
  · intro t hts
    subst hts
    rfl
  · intro t₁ t₂ rest hts
    subst hts
    rfl

/-- C9: the cost recorded on a benchmark result is the API-reported cost
when the usage data carries one; otherwise it is
`prompt/1e6 * input_price + (completion + thinking)/1e6 * output_price`
over the recorded token counts (including the no-usage-data estimation
branch, where thinking is zero). -/
theorem recorded_cost_formula (pricing : ModelPricing) (taskLen respLen : Nat)
    (usageData : Option UsageData) :
    (∀ c : ℚ, usageData.bind (fun u => u.cost) = some c →
      (runResultUsage pricing taskLen respLen usageData).cost_usd = c) ∧
    (usageData.bind (fun u => u.cost) = none →
      (runResultUsage pricing taskLen respLen usageData).cost_usd =
        ((runResultUsage pricing taskLen respLen usageData).prompt_tokens : ℚ) /
            1000000 * pricing.input_price_per_million +
          (((runResultUsage pricing taskLen respLen usageData).completion_tokens +
            (runResultUsage pricing taskLen respLen usageData).thinking_tokens : Nat) : ℚ) /
            1000000 * pricing.output_price_per_million) := by
  rcases usageData with _ | ud
  · refine ⟨?_, ?_⟩
    · intro c hc
      simp at hc
    · intro _
      simp [runResultUsage, calculate_cost]
  · rcases hc : ud.cost with _ | c
    · refine ⟨?_, ?_⟩
      · intro c' hc'
        simp [hc] at hc'
      · intro _
        simp only [runResultUsage, hc, calculate_cost]
    · refine ⟨?_, ?_⟩
      · intro c' hc'
        simp [hc] at hc'
        subst hc'
        simp [runResultUsage, hc]
      · intro hnone
        simp [hc] at hnone

/-! ## Witnesses: each hypothesis-bearing theorem above, applied at a
concrete input. -/

/-- Witness for the amended C1 theorem at the free text `"done"`. -/
theorem select_action_free_text_completes_witness :
    select_action_tool (.textResponse (some "done")) =
      .finalAnswer
        ⟨"Agent decided to complete the task", ["done"], "done", .completed⟩ :=
  (select_action_free_text_completes "done" (by decide)).1

/-- Witness for the amended C3 theorem with the shipped configuration
(`max_iterations = 20`) at iteration 20. -/
theorem prepare_tools_narrowing_witness :
    vampi_prepare_tools 20 20 ((vampiToolkit []).toFinset) =
      {ToolClass.reasoningTool, ToolClass.finalAnswerTool} :=
  (prepare_tools_narrowing 20 4 20 0 ((vampiToolkit []).toFinset) [] (by decide)).2.2.1

/-- Witness for the C4 theorem: round-tripping a decoded final-answer action
strips the discriminant. -/
theorem discriminated_schema_roundtrip_witness :
    discriminantModelDump (decodeDerived demoVariant [("answer", "42")]) =
      [("answer", "42")] :=
  (discriminated_schema_roundtrip [demoVariant] (by decide)).2.2.1 demoVariant
    (by decide) [("answer", "42")] (by decide)

/-- Witness for the C5 theorem on `demoTokenUsage` (total 15 = 10 + 5,
thinking 3). -/
theorem to_dict_total_adds_thinking_witness :
    (TokenUsage.to_dict demoTokenUsage).total_tokens =
      demoTokenUsage.prompt_tokens + demoTokenUsage.completion_tokens +
        demoTokenUsage.thinking_tokens :=
  to_dict_total_adds_thinking demoTokenUsage (by decide) (by decide)

/-- Witness for the amended C6 theorem: merging two concrete usage payloads
in either order gives the same token counters. -/
theorem add_usage_fold_counters_witness :
    ([some demoObjUsage, some demoDictUsage].foldl
        TokenUsage.add_usage {}).prompt_tokens =
      ([some demoDictUsage, some demoObjUsage].foldl
        TokenUsage.add_usage {}).prompt_tokens ∧
    ([some demoObjUsage, some demoDictUsage].foldl
        TokenUsage.add_usage {}).completion_tokens =
      ([some demoDictUsage, some demoObjUsage].foldl
        TokenUsage.add_usage {}).completion_tokens ∧
    ([some demoObjUsage, some demoDictUsage].foldl
        TokenUsage.add_usage {}).total_tokens =
      ([some demoDictUsage, some demoObjUsage].foldl
        TokenUsage.add_usage {}).total_tokens ∧
    ([some demoObjUsage, some demoDictUsage].foldl
        TokenUsage.add_usage {}).thinking_tokens =
      ([some demoDictUsage, some demoObjUsage].foldl
        TokenUsage.add_usage {}).thinking_tokens ∧
    ([some demoObjUsage, some demoDictUsage].foldl
        TokenUsage.add_usage {}).cached_tokens =
      ([some demoDictUsage, some demoObjUsage].foldl
        TokenUsage.add_usage {}).cached_tokens :=
  add_usage_fold_counters_perm_invariant {} _ _
    (List.Perm.swap (some demoDictUsage) (some demoObjUsage) [])

/-- Witness for the C7 theorem: a terminal completion carrying usage is
merged even with an empty stream. -/
theorem usage_merge_prefers_terminal_witness :
    trackRequestUsage {} (some demoObjUsage) [] =
      TokenUsage.add_usage {} (some demoObjUsage) :=
  (usage_merge_prefers_terminal {} (some demoObjUsage) []).2.1 demoObjUsage rfl

/-- Witness for the C8 theorem on the six-message conversation with cap 4:
its truncation is a fixed point, and the first user message survives. -/
theorem truncation_idempotent_witness :
    truncate_conversation 4 (truncate_conversation 4 c2Conv) =
      truncate_conversation 4 c2Conv ∧
    (⟨"user", some "analyze the repository"⟩ : Message) ∈
      truncate_conversation 4 c2Conv :=
  ⟨truncation_idempotent_and_first_user_anchored.1 4 c2Conv (by decide),
   truncation_idempotent_and_first_user_anchored.2 4 c2Conv
     ⟨"user", some "analyze the repository"⟩ (by decide) (by decide)⟩

/-- Witness for the C9 theorem: with no usage data the recorded cost follows
the pricing formula over the recorded (estimated) token counts. -/
theorem recorded_cost_formula_witness :
    (runResultUsage ⟨3, 15⟩ 100 200 none).cost_usd =
      ((runResultUsage ⟨3, 15⟩ 100 200 none).prompt_tokens : ℚ) / 1000000 *
          (ModelPricing.mk 3 15).input_price_per_million +
        (((runResultUsage ⟨3, 15⟩ 100 200 none).completion_tokens +
          (runResultUsage ⟨3, 15⟩ 100 200 none).thinking_tokens : Nat) : ℚ) /
            1000000 * (ModelPricing.mk 3 15).output_price_per_million :=
  (recorded_cost_formula ⟨3, 15⟩ 100 200 none).2 rfl

/-- Witness for the C10 theorem at the shipped cap of 80. -/
theorem truncation_length_witness :
    (∀ c : List Message, 80 < c.length →
        (truncate_conversation 80 c).length ≤ 80 + 1) ∧
    (∃ c : List Message, 80 < c.length ∧
        (truncate_conversation 80 c).length = 80 + 1) :=
  truncation_length_at_most_cap_plus_one 80 (by decide)

end SgrVampi
